import Mathlib

/-!
Verification development for the vk-flightctl-provider bridge.

The Go sources are embedded shallowly:
- Kubernetes resource quantities (resource.Quantity) are modelled as exact
  integers (Quantity arithmetic on Sub, Sign, IsZero, Value is exact here;
  all inputs of interest are whole-unit quantities).
- Go maps are modelled as association lists with first-match lookup;
  map assignment is modelled by cons-plus-filter, map deletion by filter.
- The Flightctl HTTP backend is modelled as a pure store of device
  documents with reachable transport; Go errors are Except String.
- Wall-clock timestamps are modelled as integer seconds where they
  matter (TimeoutTracker); fields that only carry times for logging
  (DeployedAt, LastTransitionTime) are omitted.
-/

namespace VKFC

/-- pkg/models/device.go: ResourceList with CPU and memory quantities. -/
structure ResourceList where
  cpu : Int
  memory : Int
deriving DecidableEq

/-- pkg/models/device.go: DevicePhase constants. -/
inductive DevicePhase where
  | Ready
  | NotReady
  | Unknown
deriving DecidableEq

/-- pkg/models/device.go: ConnectionState constants. -/
inductive ConnectionState where
  | Connected
  | Disconnected
  | Unknown
deriving DecidableEq

/-- pkg/models/device.go: DeviceStatus. -/
structure DeviceStatus where
  phase : DevicePhase
  message : String
  reason : String
deriving DecidableEq

/-- pkg/models/device.go: Device. Timestamps (LastHeartbeat, CreatedAt,
UpdatedAt) are not read by any embedded operation and are omitted. -/
structure Device where
  id : String
  name : String
  fleetID : String
  labels : List (String × String)
  capacity : ResourceList
  allocatable : ResourceList
  status : DeviceStatus
  connectionState : ConnectionState
deriving DecidableEq

/-- pkg/models/device.go: Device.IsReady. -/
def Device.isReady (d : Device) : Bool :=
  match d.status.phase, d.connectionState with
  | DevicePhase.Ready, ConnectionState.Connected => true
  | _, _ => false

/-- pkg/models/device.go: Device.HasSufficientResources.
The Go code subtracts the request from the allocatable quantity and
requires the difference to be nonzero with nonnegative sign, in both
dimensions. -/
def Device.hasSufficientResources (d : Device) (cpu memory : Int) : Bool :=
  let cpuAvail := d.allocatable.cpu - cpu
  let memAvail := d.allocatable.memory - memory
  !(cpuAvail == 0) && decide (0 ≤ cpuAvail) && !(memAvail == 0) && decide (0 ≤ memAvail)

/-- Go map access with string values: a missing key yields the zero value. -/
def lookupLabel (labels : List (String × String)) (key : String) : String :=
  match labels.lookup key with
  | some v => v
  | none => ""

/-- pkg/models/target.go: DeploymentTarget. -/
structure DeploymentTarget where
  fleetID : Option String
  selectors : List (String × String)
  deviceID : Option String

/-- pkg/models/target.go: DeploymentTarget.matchesDevice. -/
def DeploymentTarget.matchesDevice (dt : DeploymentTarget) (d : Device) : Bool :=
  (match dt.fleetID with
   | some f => d.fleetID == f
   | none => true)
  && dt.selectors.all (fun kv => lookupLabel d.labels kv.1 == kv.2)

/-- Go map access with int values: a missing key yields 0
(podsByDevice[id] in the sort comparator). -/
def podsAt (podsByDevice : List (String × Nat)) (id : String) : Nat :=
  match podsByDevice.lookup id with
  | some n => n
  | none => 0

/-- pkg/models/target.go: the sort.Slice comparator inside SelectDevice,
as a strict order: i sorts before j when i has more allocatable CPU, or
equal CPU and fewer mapped pods. -/
def devLess (podsByDevice : List (String × Nat)) (a b : Device) : Prop :=
  b.allocatable.cpu < a.allocatable.cpu ∨
    (a.allocatable.cpu = b.allocatable.cpu ∧
      podsAt podsByDevice a.id < podsAt podsByDevice b.id)

instance (p : List (String × Nat)) : DecidableRel (devLess p) := fun a b => by
  unfold devLess; infer_instance

/-- The non-strict companion of the comparator: a may stay before b. -/
def sortLE (podsByDevice : List (String × Nat)) (a b : Device) : Prop :=
  ¬ devLess podsByDevice b a

instance (p : List (String × Nat)) : DecidableRel (sortLE p) := fun a b => by
  unfold sortLE; infer_instance

/-- pkg/models/target.go: DeploymentTarget.SelectDevice. Go sorts the
candidate slice with sort.Slice and returns candidates[0]; for the
candidate-list sizes this bridge handles, Go sort.Slice is an insertion
sort, modelled here by List.insertionSort on the non-strict comparator. -/
def DeploymentTarget.selectDevice (dt : DeploymentTarget) (devices : List Device)
    (podsByDevice : List (String × Nat)) : Except String Device :=
  match dt.deviceID with
  | some did =>
    match devices.find? (fun d => d.id == did) with
    | some d =>
      if d.isReady then Except.ok d
      else Except.error ("device " ++ did ++ " is not ready")
    | none => Except.error ("device " ++ did ++ " not found")
  | none =>
    let candidates := devices.filter (fun d => dt.matchesDevice d && d.isReady)
    if candidates.isEmpty then
      Except.error "no suitable device found"
    else
      match (List.insertionSort (sortLE podsByDevice) candidates).head? with
      | some c => Except.ok c
      | none => Except.error "no suitable device found"

/-- k8s PodPhase vocabulary used by the provider. -/
inductive PodPhase where
  | Pending
  | Running
  | Succeeded
  | Failed
  | Unknown
deriving DecidableEq

/-- k8s PodConditionType values used by the provider. -/
inductive CondType where
  | Ready
  | PodScheduled
deriving DecidableEq

/-- k8s ConditionStatus values used by the provider. -/
inductive CondStatus where
  | CTrue
  | CFalse
deriving DecidableEq

/-- k8s PodCondition as built by the provider and the status mapper
(LastTransitionTime carries only wall-clock time and is omitted). -/
structure PodCondition where
  typ : CondType
  condStatus : CondStatus
  reason : String
  msg : String
deriving DecidableEq

/-- k8s PodStatus as built by the provider and the status mapper. -/
structure PodStatus where
  phase : PodPhase
  conditions : List PodCondition
  message : String
deriving DecidableEq

/-- k8s EnvVar: a literal Value, or an indirect ValueFrom reference
(modelled by a presence flag, since only presence is inspected). -/
structure EnvVar where
  name : String
  value : String
  hasValueFrom : Bool
deriving DecidableEq

/-- k8s ContainerPort (only ContainerPort is read). -/
structure ContainerPort where
  containerPort : Int
deriving DecidableEq

/-- k8s Container fields read by the bridge. Resource requests are
carried by the orchestrator object; the dispatch path never reads them. -/
structure Container where
  name : String
  image : String
  command : List String
  args : List String
  env : List EnvVar
  ports : List ContainerPort
  requests : ResourceList
deriving DecidableEq

/-- k8s RestartPolicy. -/
inductive RestartPolicy where
  | Always
  | Never
  | OnFailure
deriving DecidableEq

/-- k8s Pod fields read by the bridge (metadata, annotations, spec). -/
structure Pod where
  ns : String
  name : String
  uid : String
  anns : List (String × String)
  containers : List Container
  restartPolicy : RestartPolicy
deriving DecidableEq

/-- pkg/models/pod_mapping.go: PodDeviceMapping (DeployedAt omitted,
Status is the cached status updated by the reconciliation loop). -/
structure PodDeviceMapping where
  podKey : String
  ns : String
  name : String
  podUID : String
  deviceID : String
  cachedStatus : Option PodStatus
deriving DecidableEq

/-- fmt.Sprintf of the namespace/name pod key. -/
def podKeyOf (pod : Pod) : String := pod.ns ++ "/" ++ pod.name

/-- docs/Build_and_Deploy.md pods.go: strings.ReplaceAll(strings.ToLower(name), ".", "-"). -/
def sanitizeServiceName (name : String) : String :=
  (name.toLower).replace "." "-"

/-- docs/Build_and_Deploy.md pods.go: one environment line of the compose
document (direct value, or a placeholder comment for indirect sources). -/
def composeEnvLine (e : EnvVar) : String :=
  if e.value ≠ "" then "      - " ++ e.name ++ "=" ++ e.value ++ "\n"
  else if e.hasValueFrom then "      # " ++ e.name ++ ": (from secret/configmap)\n"
  else ""

/-- docs/Build_and_Deploy.md pods.go: one ports line of the compose
document (container port mapped to the same host port). -/
def composePortLine (p : ContainerPort) : String :=
  if 0 < p.containerPort then
    "      - \"" ++ toString p.containerPort ++ ":" ++ toString p.containerPort ++ "\"\n"
  else ""

/-- docs/Build_and_Deploy.md pods.go: restart-policy mapping
(default unless-stopped, Never to no, OnFailure to on-failure). -/
def restartPolicyValue : RestartPolicy → String
  | RestartPolicy.Never => "no"
  | RestartPolicy.OnFailure => "on-failure"
  | RestartPolicy.Always => "unless-stopped"

/-- docs/Build_and_Deploy.md pods.go: the per-container service block of
convertPodToDockerCompose (the volume and resource blocks are commented
out in the source and therefore absent here). -/
def composeService (restart : String) (c : Container) : String :=
  "  " ++ sanitizeServiceName c.name ++ ":\n"
  ++ "    image: " ++ c.image ++ "\n"
  ++ (if 0 < c.command.length then
        "    entrypoint:\n" ++ String.join (c.command.map (fun cmd => "      - " ++ cmd ++ "\n"))
      else "")
  ++ (if 0 < c.args.length then
        "    command:\n" ++ String.join (c.args.map (fun a => "      - " ++ a ++ "\n"))
      else "")
  ++ (if 0 < c.env.length then
        "    environment:\n" ++ String.join (c.env.map composeEnvLine)
      else "")
  ++ (if 0 < c.ports.length then
        "    ports:\n" ++ String.join (c.ports.map composePortLine)
      else "")
  ++ "    restart: " ++ restart ++ "\n"
  ++ "\n"

/-- docs/Build_and_Deploy.md pods.go: convertPodToDockerCompose. -/
def convertPodToDockerCompose (pod : Pod) : String :=
  if pod.containers.length = 0 then ""
  else
    " version: \x273.8\x27\n services:\n"
    ++ String.join (pod.containers.map (composeService (restartPolicyValue pod.restartPolicy)))

/-- docs/Build_and_Deploy.md pods.go: InlineContent of an application. -/
structure InlineContent where
  content : String
  path : String
deriving DecidableEq

/-- docs/Build_and_Deploy.md pods.go: FlightctlApplication. -/
structure FlightctlApplication where
  name : String
  appType : String
  inline : List InlineContent
deriving DecidableEq

/-- docs/Build_and_Deploy.md pods.go: FlightctlApplicationStatus. -/
structure FlightctlApplicationStatus where
  name : String
  status : String
  summary : String
deriving DecidableEq

/-- docs/Build_and_Deploy.md pods.go: FlightctlCondition. -/
structure FlightctlCondition where
  typ : String
  condStatus : String
  reason : String
  message : String
deriving DecidableEq

/-- docs/Build_and_Deploy.md pods.go: FlightctlDeviceStatus. -/
structure FlightctlDeviceStatus where
  applications : List FlightctlApplicationStatus
  conditions : List FlightctlCondition
deriving DecidableEq

/-- docs/Build_and_Deploy.md pods.go: FlightctlDeviceMetadata. -/
structure FlightctlDeviceMetadata where
  name : String
  labels : List (String × String)
deriving DecidableEq

/-- docs/Build_and_Deploy.md pods.go: FlightctlDeviceSpec (systemd holds
only MatchPatterns). -/
structure FlightctlDeviceSpec where
  systemd : Option (List String)
  applications : List FlightctlApplication
deriving DecidableEq

/-- docs/Build_and_Deploy.md pods.go: FlightctlDevice document. -/
structure FlightctlDevice where
  apiVersion : String
  kind : String
  metadata : FlightctlDeviceMetadata
  spec : FlightctlDeviceSpec
  status : Option FlightctlDeviceStatus
deriving DecidableEq

/-- docs/Build_and_Deploy.md pods.go: podToFlightctlApplication (the
application name is namespace-name; the payload is an inline compose
document at podman-compose.yaml of appType compose). -/
def podToFlightctlApplication (pod : Pod) : FlightctlApplication :=
  let appName := pod.ns ++ "-" ++ pod.name
  let inlineContent : InlineContent :=
    { content := convertPodToDockerCompose pod, path := "podman-compose.yaml" }
  { name := appName, appType := "compose", inline := [inlineContent] }

/-- The Flightctl backend, modelled as a pure store of device documents
keyed by device ID (transport assumed reachable; HTTP GET of a missing
device is the 404 error path). -/
structure Backend where
  devices : List (String × FlightctlDevice)
deriving DecidableEq

/-- docs/Build_and_Deploy.md pods.go: getDevice (GET of the device
document; a missing device is the non-200 error path). -/
def getDevice (b : Backend) (deviceID : String) : Except String FlightctlDevice :=
  match b.devices.lookup deviceID with
  | some d => Except.ok d
  | none => Except.error ("GET device failed with status 404: device not found")

/-- docs/Build_and_Deploy.md pods.go: updateDevice (full-document PUT). -/
def updateDevice (b : Backend) (deviceID : String) (d : FlightctlDevice) : Backend :=
  { devices := (deviceID, d) :: b.devices.filter (fun kv => kv.1 ≠ deviceID) }

/-- docs/Build_and_Deploy.md pods.go: PodManager.DeployPod. Fetches the
device document, drops any existing application of the same name,
appends the converted application, clears the status sub-document and
PUTs the document back. -/
def pmDeployPod (b : Backend) (pod : Pod) (deviceID : String) :
    Except String Unit × Backend :=
  match getDevice b deviceID with
  | Except.error e => (Except.error ("getting device " ++ deviceID ++ ": " ++ e), b)
  | Except.ok device =>
    let newApp := podToFlightctlApplication pod
    let existingApps := device.spec.applications.filter (fun app => app.name ≠ newApp.name)
    let device' : FlightctlDevice :=
      { device with
        spec := { device.spec with applications := existingApps ++ [newApp] },
        status := none }
    (Except.ok (), updateDevice b deviceID device')

/-- docs/Build_and_Deploy.md pods.go: PodManager.DeletePod. Removes the
namespace-name application from the device document; when the
application is not present the call is a successful no-op. -/
def pmDeletePod (b : Backend) (pod : Pod) (deviceID : String) :
    Except String Unit × Backend :=
  match getDevice b deviceID with
  | Except.error e => (Except.error ("getting device " ++ deviceID ++ ": " ++ e), b)
  | Except.ok device =>
    let appName := pod.ns ++ "-" ++ pod.name
    let updatedApps := device.spec.applications.filter (fun app => app.name ≠ appName)
    let found := device.spec.applications.any (fun app => app.name == appName)
    if found then
      let device' : FlightctlDevice :=
        { device with
          spec := { device.spec with applications := updatedApps },
          status := none }
      (Except.ok (), updateDevice b deviceID device')
    else
      (Except.ok (), b)

/-- docs/Build_and_Deploy.md pods.go: mapFlightctlStatusToPodStatus.
Case-insensitive switch on the reported application status string. -/
def mapFlightctlStatusToPodStatus (appStatus : FlightctlApplicationStatus) : PodStatus :=
  let t := appStatus.status.toLower
  if t = "running" then
    { phase := PodPhase.Running,
      conditions := [{ typ := CondType.Ready, condStatus := CondStatus.CTrue,
                       reason := "ApplicationRunning", msg := appStatus.summary }],
      message := appStatus.summary }
  else if t = "pending" ∨ t = "starting" then
    { phase := PodPhase.Pending,
      conditions := [{ typ := CondType.PodScheduled, condStatus := CondStatus.CTrue,
                       reason := "ApplicationStarting", msg := appStatus.summary }],
      message := appStatus.summary }
  else if t = "failed" ∨ t = "error" then
    { phase := PodPhase.Failed,
      conditions := [{ typ := CondType.Ready, condStatus := CondStatus.CFalse,
                       reason := "ApplicationFailed", msg := appStatus.summary }],
      message := appStatus.summary }
  else if t = "completed" ∨ t = "succeeded" then
    { phase := PodPhase.Succeeded,
      conditions := [{ typ := CondType.Ready, condStatus := CondStatus.CFalse,
                       reason := "ApplicationCompleted", msg := appStatus.summary }],
      message := appStatus.summary }
  else if t = "stopped" then
    { phase := PodPhase.Succeeded,
      conditions := [{ typ := CondType.Ready, condStatus := CondStatus.CFalse,
                       reason := "ApplicationStopped", msg := appStatus.summary }],
      message := appStatus.summary }
  else
    { phase := PodPhase.Pending,
      conditions := [{ typ := CondType.PodScheduled, condStatus := CondStatus.CTrue,
                       reason := "UnknownStatus",
                       msg := "Unknown application status: " ++ appStatus.status
                              ++ " - " ++ appStatus.summary }],
      message := appStatus.summary }

/-- The orchestrator phase the spec status table assigns to a reported
status string (written from the spec table in section 4.4, to be
compared with the code mapper). -/
def specStatusPhase (raw : String) : PodPhase :=
  let t := raw.toLower
  if t = "running" then PodPhase.Running
  else if t = "pending" ∨ t = "starting" then PodPhase.Pending
  else if t = "failed" ∨ t = "error" then PodPhase.Failed
  else if t = "completed" ∨ t = "succeeded" then PodPhase.Succeeded
  else if t = "stopped" then PodPhase.Succeeded
  else PodPhase.Pending

/-- The Ready-condition value the spec status table assigns to a
reported status string (none when the table leaves it blank). -/
def specStatusReady (raw : String) : Option Bool :=
  let t := raw.toLower
  if t = "running" then some true
  else if t = "pending" ∨ t = "starting" then none
  else if t = "failed" ∨ t = "error" then some false
  else if t = "completed" ∨ t = "succeeded" then some false
  else if t = "stopped" then some false
  else none

/-- The Ready condition carried by a PodStatus, when one is present. -/
def podReadyFlag (ps : PodStatus) : Option Bool :=
  match ps.conditions.find? (fun c => c.typ == CondType.Ready) with
  | some c => some (c.condStatus == CondStatus.CTrue)
  | none => none

/-- pkg/provider/provider.go: the device-id annotation key. -/
def deviceIDAnnKey : String := "flightctl.io/device-id"

/-- pkg/provider/provider.go: the fleet-id annotation key. -/
def fleetIDAnnKey : String := "flightctl.io/fleet-id"

/-- pkg/provider/provider.go: the hardcoded default device identifier. -/
def defaultDeviceID : String := "d1k9ppdrurp23cfmj554f4rtt4f8uvo9mba4sp3in9arhli44ot0"

/-- Go annotation-map access with ok flag: present keys yield their
value, absent keys yield none. -/
def annValue (anns : List (String × String)) (key : String) : Option String :=
  anns.lookup key

/-- pkg/provider/provider.go: the fleet-annotation branch and the
default-device fallback of selectDeviceForPod, reached when the
device-id annotation is absent or empty. -/
def selectFleetOrDefault (anns : List (String × String)) : Except String String :=
  match annValue anns fleetIDAnnKey with
  | some fleetID =>
    if fleetID ≠ "" then
      Except.error ("fleet-based device selection not yet implemented (fleet: "
                    ++ fleetID ++ ")")
    else Except.ok defaultDeviceID
  | none => Except.ok defaultDeviceID

/-- pkg/provider/provider.go: Provider.selectDeviceForPod. A non-empty
device-id annotation is returned directly; a non-empty fleet-id
annotation is the not-implemented error; otherwise the default device. -/
def selectDeviceForPod (anns : List (String × String)) : Except String String :=
  match annValue anns deviceIDAnnKey with
  | some deviceID =>
    if deviceID ≠ "" then Except.ok deviceID
    else selectFleetOrDefault anns
  | none => selectFleetOrDefault anns

/-- pkg/provider/provider.go: the mutable provider state, the
podMappings map keyed by namespace/name. -/
structure ProviderState where
  podMappings : List (String × PodDeviceMapping)
deriving DecidableEq

/-- Go map assignment on the podMappings map. -/
def mapSet (m : List (String × PodDeviceMapping)) (k : String) (v : PodDeviceMapping) :
    List (String × PodDeviceMapping) :=
  (k, v) :: m.filter (fun kv => kv.1 ≠ k)

/-- The outcome of one Provider.CreatePod call: the returned error, the
provider state afterwards, and the dispatch calls issued to the backend
as (deviceID, podKey) pairs. -/
structure CreatePodOut where
  result : Except String Unit
  state : ProviderState
  dispatches : List (String × String)

/-- pkg/provider/provider.go: the initial Pending status CreatePod
caches for a freshly dispatched pod. -/
def initialPendingStatus (deviceID : String) : PodStatus :=
  { phase := PodPhase.Pending,
    conditions := [{ typ := CondType.PodScheduled, condStatus := CondStatus.CTrue,
                     reason := "Scheduled",
                     msg := "Pod scheduled to FlightCtl device " ++ deviceID }],
    message := "" }

/-- pkg/provider/provider.go: Provider.CreatePod. Selects the device
from annotations, dispatches to the backend through
PodManager.DeployPod, and records the mapping only after the dispatch
succeeded. The outcome of the one dispatch this call can issue is the
deployResult argument. -/
def createPod (deployResult : Except String Unit) (s : ProviderState) (pod : Pod) :
    CreatePodOut :=
  let podKey := podKeyOf pod
  match selectDeviceForPod pod.anns with
  | Except.error e =>
    { result := Except.error ("selecting device for pod: " ++ e),
      state := s, dispatches := [] }
  | Except.ok deviceID =>
    match deployResult with
    | Except.error e =>
      { result := Except.error ("deploying pod to device " ++ deviceID ++ ": " ++ e),
        state := s, dispatches := [(deviceID, podKey)] }
    | Except.ok _ =>
      let mapping : PodDeviceMapping :=
        { podKey := podKey, ns := pod.ns, name := pod.name, podUID := pod.uid,
          deviceID := deviceID, cachedStatus := some (initialPendingStatus deviceID) }
      { result := Except.ok (),
        state := { podMappings := mapSet s.podMappings podKey mapping },
        dispatches := [(deviceID, podKey)] }

/-- pkg/provider/provider.go: Provider.DeletePod. A missing mapping is
the idempotent success path; otherwise the backend delete runs and the
mapping is removed only on its success. -/
def providerDeletePod (s : ProviderState) (b : Backend) (pod : Pod) :
    Except String Unit × ProviderState × Backend :=
  match s.podMappings.lookup (podKeyOf pod) with
  | none => (Except.ok (), s, b)
  | some mapping =>
    match pmDeletePod b pod mapping.deviceID with
    | (Except.error e, b') =>
      (Except.error ("deleting pod from device: " ++ e), s, b')
    | (Except.ok _, b') =>
      (Except.ok (),
       { podMappings := s.podMappings.filter (fun kv => kv.1 ≠ podKeyOf pod) }, b')

/-- pkg/provider/provider.go: the status-cache write of
reconcilePodStatus, mutating the mapping in place when the key still
exists. -/
def updateCachedStatus (s : ProviderState) (podKey : String) (st : PodStatus) :
    ProviderState :=
  { podMappings := s.podMappings.map (fun kv =>
      if kv.1 = podKey then (kv.1, { kv.2 with cachedStatus := some st }) else kv) }

/-- pkg/provider/provider.go: the loop body of reconcilePodStatus: a
status-query error skips the mapping, a result is written back. -/
def reconcileStep (statusOf : PodDeviceMapping → Except String PodStatus)
    (acc : ProviderState) (kv : String × PodDeviceMapping) : ProviderState :=
  match statusOf kv.2 with
  | Except.error _ => acc
  | Except.ok st => updateCachedStatus acc kv.1 st

/-- pkg/provider/provider.go: Provider.reconcilePodStatus. Snapshots
the mappings, queries the backend status for each, skips a mapping on a
query error, and writes successful results back into the cache. The
per-mapping outcome of PodManager.GetPodStatus is the statusOf oracle. -/
def reconcilePodStatus (statusOf : PodDeviceMapping → Except String PodStatus)
    (s : ProviderState) : ProviderState :=
  s.podMappings.foldl (reconcileStep statusOf) s

/-- pkg/models/timeout.go: TimeoutTracker (timestamps and durations in
integer seconds; the context cancellation handle is not modelled). -/
structure TimeoutTracker where
  deviceID : String
  disconnectedAt : Int
  timeoutDuration : Int
  timeoutAt : Int
  affectedPods : List String
deriving DecidableEq

/-- pkg/models/timeout.go: NewTimeoutTracker, rejecting durations under
one minute or over thirty minutes (60 and 1800 seconds). -/
def newTimeoutTracker (now : Int) (deviceID : String) (duration : Int)
    (affectedPods : List String) : Except String TimeoutTracker :=
  if duration < 60 then Except.error "timeout duration must be >= 1 minute"
  else if 1800 < duration then Except.error "timeout duration must be <= 30 minutes"
  else Except.ok
    { deviceID := deviceID, disconnectedAt := now, timeoutDuration := duration,
      timeoutAt := now + duration, affectedPods := affectedPods }

/-- pkg/models/timeout.go: TimeoutTracker.IsExpired. -/
def TimeoutTracker.isExpired (t : TimeoutTracker) (now : Int) : Bool :=
  decide (t.timeoutAt < now)

/-! Concrete sample inputs used by counterexamples and witnesses. -/

/-- A device whose allocatable resources are exactly CPU 4, memory 8. -/
def cexDevice : Device :=
  { id := "dev-eq", name := "dev-eq", fleetID := "fleet-a", labels := [],
    capacity := { cpu := 4, memory := 8 }, allocatable := { cpu := 4, memory := 8 },
    status := { phase := DevicePhase.Ready, message := "", reason := "" },
    connectionState := ConnectionState.Connected }

/-- A Ready, Connected device with allocatable CPU 1 and memory 1. -/
def tinyDevice : Device :=
  { id := "tiny", name := "tiny", fleetID := "fleet-a", labels := [],
    capacity := { cpu := 1, memory := 1 }, allocatable := { cpu := 1, memory := 1 },
    status := { phase := DevicePhase.Ready, message := "", reason := "" },
    connectionState := ConnectionState.Connected }

/-- A fleet-filtered placement request with no explicit device ID. -/
def fleetTarget : DeploymentTarget :=
  { fleetID := some "fleet-a", selectors := [], deviceID := none }

/-- Tie-break sample: device with ID a, fully tied with [[c5devB]]. -/
def c5devA : Device :=
  { id := "a", name := "a", fleetID := "fleet-a", labels := [],
    capacity := { cpu := 4, memory := 8 }, allocatable := { cpu := 4, memory := 8 },
    status := { phase := DevicePhase.Ready, message := "", reason := "" },
    connectionState := ConnectionState.Connected }

/-- Tie-break sample: device with ID b, fully tied with [[c5devA]]. -/
def c5devB : Device :=
  { id := "b", name := "b", fleetID := "fleet-a", labels := [],
    capacity := { cpu := 4, memory := 8 }, allocatable := { cpu := 4, memory := 8 },
    status := { phase := DevicePhase.Ready, message := "", reason := "" },
    connectionState := ConnectionState.Connected }

/-- A container requesting CPU 100, far beyond any device allocatable
figure appearing in the repository (4 cores). -/
def bigContainer : Container :=
  { name := "app", image := "registry.example/app:1", command := [], args := [],
    env := [], ports := [], requests := { cpu := 100, memory := 8 } }

/-- An unannotated pod carrying the oversized container. -/
def bigPod : Pod :=
  { ns := "default", name := "big", uid := "uid-big", anns := [],
    containers := [bigContainer], restartPolicy := RestartPolicy.Always }

/-- A pod explicitly annotated onto device dev-1. -/
def annPod : Pod :=
  { ns := "default", name := "web", uid := "uid-web",
    anns := [(deviceIDAnnKey, "dev-1")],
    containers := [], restartPolicy := RestartPolicy.Always }

/-- The device document of dev-1 holding the default-web application. -/
def c8device : FlightctlDevice :=
  { apiVersion := "v1alpha1", kind := "Device",
    metadata := { name := "dev-1", labels := [] },
    spec := { systemd := none,
              applications := [{ name := "default-web", appType := "compose", inline := [] },
                               { name := "other-app", appType := "compose", inline := [] }] },
    status := none }

/-- A backend holding only the dev-1 document. -/
def c8backend : Backend := { devices := [("dev-1", c8device)] }

/-- A provider state mapping default/web onto dev-1. -/
def c8state : ProviderState :=
  { podMappings := [("default/web",
      { podKey := "default/web", ns := "default", name := "web", podUID := "uid-web",
        deviceID := "dev-1", cachedStatus := none })] }

/-- The outcome of the first DeletePod call on the sample state. -/
def c8after : Except String Unit × ProviderState × Backend :=
  providerDeletePod c8state c8backend annPod

/-- A dev-1 document that does not hold the default-web application. -/
def bareDevice : FlightctlDevice :=
  { apiVersion := "v1alpha1", kind := "Device",
    metadata := { name := "dev-1", labels := [] },
    spec := { systemd := none,
              applications := [{ name := "other-app", appType := "compose", inline := [] }] },
    status := none }

/-- A backend holding only the bare dev-1 document. -/
def bareBackend : Backend := { devices := [("dev-1", bareDevice)] }

/-- A status oracle for a device that stays unreachable: every status
query fails at the transport. -/
def downOracle : PodDeviceMapping → Except String PodStatus :=
  fun _ => Except.error "connection refused"

/-! Helper lemmas shared by the claim theorems. -/

theorem keys_map_update (l : List (String × PodDeviceMapping)) (k : String) (st : PodStatus) :
    (l.map (fun kv =>
        if kv.1 = k then (kv.1, { kv.2 with cachedStatus := some st }) else kv)).map
        Prod.fst = l.map Prod.fst := by
  induction l with
  | nil => rfl
  | cons hd tl ih => by_cases h : hd.1 = k <;> simp [h, ih]

theorem keys_updateCachedStatus (s : ProviderState) (k : String) (st : PodStatus) :
    (updateCachedStatus s k st).podMappings.map Prod.fst = s.podMappings.map Prod.fst := by
  unfold updateCachedStatus
  exact keys_map_update _ _ _

theorem keys_reconcile_foldl (statusOf : PodDeviceMapping → Except String PodStatus)
    (l : List (String × PodDeviceMapping)) (acc : ProviderState) :
    ((l.foldl (reconcileStep statusOf) acc).podMappings.map Prod.fst)
      = acc.podMappings.map Prod.fst := by
  induction l generalizing acc with
  | nil => rfl
  | cons hd tl ih =>
    rw [List.foldl_cons, ih]
    unfold reconcileStep
    cases statusOf hd.2 with
    | error e => rfl
    | ok st => exact keys_updateCachedStatus _ _ _

theorem reconcile_foldl_all_error (statusOf : PodDeviceMapping → Except String PodStatus)
    (l : List (String × PodDeviceMapping)) (acc : ProviderState)
    (h : ∀ kv ∈ l, ∃ e, statusOf kv.2 = Except.error e) :
    l.foldl (reconcileStep statusOf) acc = acc := by
  induction l generalizing acc with
  | nil => rfl
  | cons hd tl ih =>
    rw [List.foldl_cons]
    obtain ⟨e, he⟩ := h hd (List.mem_cons_self _ _)
    have hstep : reconcileStep statusOf acc hd = acc := by
      unfold reconcileStep; rw [he]
    rw [hstep]
    exact ih _ (fun kv hkv => h kv (List.mem_cons_of_mem _ hkv))

theorem lookup_filter_ne_self (k : String) (l : List (String × PodDeviceMapping)) :
    (l.filter (fun kv => kv.1 ≠ k)).lookup k = none := by
  induction l with
  | nil => rfl
  | cons hd tl ih =>
    by_cases h : hd.1 = k
    · simp only [List.filter_cons, decide_eq_true_eq, ne_eq, h, not_true_eq_false,
        if_false]
      exact ih
    · simp only [List.filter_cons, decide_eq_true_eq, ne_eq, h, not_false_iff, if_true]
      have hbeq : (k == hd.1) = false := beq_eq_false_iff_ne.mpr (Ne.symm h)
      simp [List.lookup, hbeq, ih]
      exact fun a b _ hak hka => hak hka.symm

/-! Claim theorems. -/

/-- C6 (amended): Device.HasSufficientResources returns true exactly
when the requested CPU is strictly below the allocatable CPU and the
requested memory is strictly below the allocatable memory; a request
exactly equal to the allocatable amount in either dimension is
rejected. -/
theorem hasSufficientResources_iff_strict (d : Device) (cpu memory : Int) :
    d.hasSufficientResources cpu memory = true ↔
      (cpu < d.allocatable.cpu ∧ memory < d.allocatable.memory) := by
  unfold Device.hasSufficientResources
  simp only [Bool.and_eq_true, Bool.not_eq_true', beq_eq_false_iff_ne, ne_eq,
    decide_eq_true_eq]
  omega

/-- C6 (counterexample): a device with allocatable CPU 4 and memory 8
rejects the request (4, 8), though the claim says a request exactly
equal to the allocatable amounts is admitted. -/
theorem hasSufficientResources_equal_request_cex :
    cexDevice.allocatable.cpu = 4 ∧ cexDevice.allocatable.memory = 8 ∧
    cexDevice.hasSufficientResources 4 8 = false := ⟨rfl, rfl, rfl⟩

/-- C2: SelectDevice applies no resource filter: it selects a Ready and
Connected fleet device whose allocatable CPU and memory are 1, a device
that fails the admission predicate for a request of 100 in each
dimension, and it never takes the requested quantities as an input. -/
theorem selectDevice_no_resource_filter :
    fleetTarget.selectDevice [tinyDevice] [] = Except.ok tinyDevice ∧
    tinyDevice.allocatable.cpu = 1 ∧ tinyDevice.allocatable.memory = 1 ∧
    tinyDevice.hasSufficientResources 100 100 = false := ⟨rfl, rfl, rfl, rfl⟩

/-- C1: CreatePod dispatches unconditionally. The unannotated pod whose
container requests 100 CPU cores is routed to the default device and
dispatched, and CreatePod returns success; no resource admission check
runs and no InsufficientResources error is produced. -/
theorem createPod_no_admission_gate :
    (createPod (Except.ok ()) { podMappings := [] } bigPod).result = Except.ok () ∧
    (createPod (Except.ok ()) { podMappings := [] } bigPod).dispatches
      = [(defaultDeviceID, "default/big")] ∧
    bigContainer.requests.cpu = 100 := ⟨rfl, rfl, rfl⟩

/-- C4: the inbound status mapper agrees with the spec status table.
For every reported status string, the produced phase equals the phase
the table assigns to the lowercased string (matching is
case-insensitive, every table row maps as listed, and every
unrecognized string yields Pending, never Failed or Succeeded), and the
Ready condition carried by the produced status agrees with the table's
Ready column. -/
theorem mapStatus_matches_spec_table (s : FlightctlApplicationStatus) :
    (mapFlightctlStatusToPodStatus s).phase = specStatusPhase s.status ∧
    podReadyFlag (mapFlightctlStatusToPodStatus s) = specStatusReady s.status := by
  simp only [mapFlightctlStatusToPodStatus, specStatusPhase, specStatusReady]
  split_ifs <;> simp only [podReadyFlag, List.find?] <;> exact ⟨trivial, rfl⟩

theorem sortLE_total_thm (p : List (String × Nat)) (a b : Device) :
    sortLE p a b ∨ sortLE p b a := by
  unfold sortLE devLess
  omega

theorem sortLE_trans_thm (p : List (String × Nat)) (a b c : Device) :
    sortLE p a b → sortLE p b c → sortLE p a c := by
  unfold sortLE devLess
  omega

instance (p : List (String × Nat)) : IsTotal Device (sortLE p) :=
  ⟨sortLE_total_thm p⟩

instance (p : List (String × Nat)) : IsTrans Device (sortLE p) :=
  ⟨fun a b c => sortLE_trans_thm p a b c⟩

theorem insertionSort_head_min (p : List (String × Nat)) (l : List Device)
    (d : Device) (rest : List Device)
    (h : List.insertionSort (sortLE p) l = d :: rest) :
    ∀ c ∈ l, ¬ devLess p c d := by
  intro c hc
  have hs : List.Sorted (sortLE p) (List.insertionSort (sortLE p) l) :=
    List.sorted_insertionSort _ l
  rw [h] at hs
  have hmem : c ∈ List.insertionSort (sortLE p) l :=
    (List.mem_insertionSort _).mpr hc
  rw [h] at hmem
  rcases List.mem_cons.mp hmem with hcd | hmem'
  · subst hcd; unfold devLess; omega
  · exact (List.sorted_cons.mp hs).1 c hmem'

/-- C5 (amended): for a placement request without an explicit device
ID, the selected device is one of the surviving candidates, and the
sort places first a candidate with maximal allocatable CPU and, among
those, minimal mapped-workload count: no candidate sorts strictly
before the selected one under the comparator. There is no device-ID
tie-break; fully tied candidates keep their input order, and the
function is pure, so identical inputs always return the same device. -/
theorem selectDevice_sort_spec (dt : DeploymentTarget) (devices : List Device)
    (p : List (String × Nat)) (sel : Device)
    (hdid : dt.deviceID = none)
    (hok : dt.selectDevice devices p = Except.ok sel) :
    sel ∈ devices.filter (fun d => dt.matchesDevice d && d.isReady) ∧
    ∀ c ∈ devices.filter (fun d => dt.matchesDevice d && d.isReady),
      ¬ devLess p c sel := by
  unfold DeploymentTarget.selectDevice at hok
  rw [hdid] at hok
  by_cases he : (devices.filter (fun d => dt.matchesDevice d && d.isReady)).isEmpty
  · rw [if_pos he] at hok
    cases hok
  · rw [if_neg he] at hok
    rcases hsort : List.insertionSort (sortLE p)
        (devices.filter (fun d => dt.matchesDevice d && d.isReady)) with _ | ⟨c, rest⟩
    · rw [hsort] at hok
      simp at hok
    · rw [hsort] at hok
      simp only [List.head?] at hok
      have hcs : c = sel := by injection hok
      rw [hcs] at hsort
      constructor
      · have hm : sel ∈ List.insertionSort (sortLE p)
            (devices.filter (fun d => dt.matchesDevice d && d.isReady)) := by
          rw [hsort]; exact List.mem_cons_self _ _
        exact (List.mem_insertionSort _).mp hm
      · exact insertionSort_head_min p _ sel rest hsort

/-- C5 (counterexample): two fully tied Ready candidates listed as
[b-device, a-device] select the b-device: the code has no device-ID
ascending tie-break, which would have selected the a-device. -/
theorem selectDevice_no_id_tiebreak_cex :
    fleetTarget.selectDevice [c5devB, c5devA] [] = Except.ok c5devB ∧
    c5devA.id = "a" ∧ c5devB.id = "b" ∧
    c5devA.allocatable.cpu = c5devB.allocatable.cpu := by
  refine ⟨?_, rfl, rfl, rfl⟩
  rfl

/-- C5 (witness): the amended sort property evaluated on the two tied
candidates: the selected b-device is a candidate and no candidate sorts
strictly before it. -/
theorem selectDevice_sort_spec_witness :
    c5devB ∈ [c5devB, c5devA].filter
        (fun d => fleetTarget.matchesDevice d && d.isReady) ∧
    ∀ c ∈ [c5devB, c5devA].filter
        (fun d => fleetTarget.matchesDevice d && d.isReady),
      ¬ devLess [] c c5devB :=
  selectDevice_sort_spec fleetTarget [c5devB, c5devA] [] c5devB rfl rfl

/-- C9: a pod carrying a non-empty fleet annotation and no device
annotation fails immediately with the not-implemented error, never the
default-device fallback; a pod with neither annotation is routed to the
configured default device identifier. -/
theorem selectDeviceForPod_fleet_error_default_fallback :
    (∀ (anns : List (String × String)) (fleetID : String),
        annValue anns deviceIDAnnKey = none →
        annValue anns fleetIDAnnKey = some fleetID → fleetID ≠ "" →
        selectDeviceForPod anns = Except.error
          ("fleet-based device selection not yet implemented (fleet: "
            ++ fleetID ++ ")")) ∧
    (∀ anns : List (String × String),
        annValue anns deviceIDAnnKey = none →
        annValue anns fleetIDAnnKey = none →
        selectDeviceForPod anns = Except.ok defaultDeviceID) := by
  constructor
  · intro anns fleetID hdev hfleet hne
    simp [selectDeviceForPod, selectFleetOrDefault, hdev, hfleet, hne]
  · intro anns hdev hfleet
    simp [selectDeviceForPod, selectFleetOrDefault, hdev, hfleet]

/-- C9 (witness): a pod annotated only with fleet-id fleet-a fails with
the not-implemented error; an unannotated pod is routed to the default
device. -/
theorem selectDeviceForPod_fleet_error_default_fallback_witness :
    selectDeviceForPod [(fleetIDAnnKey, "fleet-a")] = Except.error
      ("fleet-based device selection not yet implemented (fleet: "
        ++ "fleet-a" ++ ")") ∧
    selectDeviceForPod [] = Except.ok defaultDeviceID :=
  ⟨selectDeviceForPod_fleet_error_default_fallback.1 [(fleetIDAnnKey, "fleet-a")]
      "fleet-a" rfl rfl (by decide),
   selectDeviceForPod_fleet_error_default_fallback.2 [] rfl rfl⟩

/-- C7: when the backend dispatch fails, CreatePod returns the dispatch
error and records no mapping, leaving the state untouched so a retry is
a fresh placement attempt; the mapping, keyed by namespace/name with
the initial Pending status, is written only when the dispatch
succeeds. -/
theorem createPod_mapping_only_after_dispatch (s : ProviderState) (pod : Pod)
    (deviceID : String) (e : String)
    (hsel : selectDeviceForPod pod.anns = Except.ok deviceID) :
    (createPod (Except.error e) s pod).result
      = Except.error ("deploying pod to device " ++ deviceID ++ ": " ++ e) ∧
    (createPod (Except.error e) s pod).state = s ∧
    (createPod (Except.ok ()) s pod).state.podMappings.lookup (podKeyOf pod)
      = some { podKey := podKeyOf pod, ns := pod.ns, name := pod.name,
               podUID := pod.uid, deviceID := deviceID,
               cachedStatus := some (initialPendingStatus deviceID) } := by
  unfold createPod
  rw [hsel]
  refine ⟨rfl, rfl, ?_⟩
  unfold mapSet
  simp [List.lookup]

/-- C7 (witness): the dispatch-failure and dispatch-success paths of
CreatePod evaluated on the dev-1-annotated pod. -/
theorem createPod_mapping_only_after_dispatch_witness :
    (createPod (Except.error "boom") c8state annPod).result
      = Except.error ("deploying pod to device " ++ "dev-1" ++ ": " ++ "boom") ∧
    (createPod (Except.error "boom") c8state annPod).state = c8state ∧
    (createPod (Except.ok ()) c8state annPod).state.podMappings.lookup (podKeyOf annPod)
      = some { podKey := podKeyOf annPod, ns := annPod.ns, name := annPod.name,
               podUID := annPod.uid, deviceID := "dev-1",
               cachedStatus := some (initialPendingStatus "dev-1") } :=
  createPod_mapping_only_after_dispatch c8state annPod "dev-1" "boom" rfl

/-- C3: what the code actually does when a device disconnects: the
status loop never removes a mapping (for every oracle, the mapping keys
after a pass equal the keys before), and when every status query fails,
as for an unreachable device, the pass leaves the state entirely
unchanged: no cached phase is forced to Unknown, no timeout tracker is
started, and no deadline ever deletes the mappings. -/
theorem reconcile_keeps_mappings :
    (∀ (statusOf : PodDeviceMapping → Except String PodStatus) (s : ProviderState),
        ((reconcilePodStatus statusOf s).podMappings.map Prod.fst)
          = s.podMappings.map Prod.fst) ∧
    (∀ (statusOf : PodDeviceMapping → Except String PodStatus) (s : ProviderState),
        (∀ kv ∈ s.podMappings, ∃ e, statusOf kv.2 = Except.error e) →
        reconcilePodStatus statusOf s = s) := by
  constructor
  · intro statusOf s
    exact keys_reconcile_foldl statusOf s.podMappings s
  · intro statusOf s h
    exact reconcile_foldl_all_error statusOf s.podMappings s h

/-- C3 (witness): a reconciliation pass over the sample state with an
unreachable device changes nothing. -/
theorem reconcile_keeps_mappings_witness :
    reconcilePodStatus downOracle c8state = c8state :=
  reconcile_keeps_mappings.2 downOracle c8state
    (fun _ _ => ⟨"connection refused", rfl⟩)

/-- C10: DeployPod sends back the fetched device document with exactly
the namespace-name entry replaced: the application list becomes the
previous list minus any entry of that name plus one appended entry of
that name, every other entry, the metadata, and the systemd section are
unchanged, and the status field is cleared before the update is sent. -/
theorem deployPod_frame (b : Backend) (pod : Pod) (deviceID : String)
    (device : FlightctlDevice) (hget : getDevice b deviceID = Except.ok device) :
    (pmDeployPod b pod deviceID).1 = Except.ok () ∧
    ∃ sent : FlightctlDevice,
      (pmDeployPod b pod deviceID).2 = updateDevice b deviceID sent ∧
      sent.spec.applications
        = device.spec.applications.filter
            (fun app => app.name ≠ (podToFlightctlApplication pod).name)
          ++ [podToFlightctlApplication pod] ∧
      (podToFlightctlApplication pod).name = pod.ns ++ "-" ++ pod.name ∧
      sent.status = none ∧
      sent.metadata = device.metadata ∧
      sent.spec.systemd = device.spec.systemd ∧
      sent.apiVersion = device.apiVersion ∧ sent.kind = device.kind := by
  unfold pmDeployPod
  rw [hget]
  exact ⟨rfl,
    { device with
      spec := { device.spec with
        applications := device.spec.applications.filter
            (fun app => app.name ≠ (podToFlightctlApplication pod).name)
          ++ [podToFlightctlApplication pod] },
      status := none },
    rfl, rfl, rfl, rfl, rfl, rfl, rfl, rfl⟩

/-- C10 (witness): the frame property of DeployPod evaluated on the
dev-1 document and the default/web pod. -/
theorem deployPod_frame_witness :
    (pmDeployPod c8backend annPod "dev-1").1 = Except.ok () ∧
    ∃ sent : FlightctlDevice,
      (pmDeployPod c8backend annPod "dev-1").2 = updateDevice c8backend "dev-1" sent ∧
      sent.spec.applications
        = c8device.spec.applications.filter
            (fun app => app.name ≠ (podToFlightctlApplication annPod).name)
          ++ [podToFlightctlApplication annPod] ∧
      (podToFlightctlApplication annPod).name = annPod.ns ++ "-" ++ annPod.name ∧
      sent.status = none ∧
      sent.metadata = c8device.metadata ∧
      sent.spec.systemd = c8device.spec.systemd ∧
      sent.apiVersion = c8device.apiVersion ∧ sent.kind = c8device.kind :=
  deployPod_frame c8backend annPod "dev-1" c8device rfl

/-- C8: DeletePod is idempotent: when a first call succeeds, an
immediate second call for the same pod succeeds as a no-op, changing
neither provider state nor backend; and a workload whose application is
already absent from the device document is treated as a successful
delete at the backend layer, not an error. -/
theorem deletePod_idempotent :
    (∀ (s : ProviderState) (b : Backend) (pod : Pod) r1 s1 b1,
        providerDeletePod s b pod = (r1, s1, b1) → r1 = Except.ok () →
        providerDeletePod s1 b1 pod = (Except.ok (), s1, b1)) ∧
    (∀ (b : Backend) (pod : Pod) (deviceID : String) (device : FlightctlDevice),
        getDevice b deviceID = Except.ok device →
        (∀ app ∈ device.spec.applications, app.name ≠ pod.ns ++ "-" ++ pod.name) →
        pmDeletePod b pod deviceID = (Except.ok (), b)) := by
  constructor
  · intro s b pod r1 s1 b1 heq hok
    unfold providerDeletePod at heq
    cases hl : s.podMappings.lookup (podKeyOf pod) with
    | none =>
      rw [hl] at heq
      simp only [Prod.mk.injEq] at heq
      obtain ⟨rfl, rfl, rfl⟩ := heq
      unfold providerDeletePod
      rw [hl]
    | some mapping =>
      rw [hl] at heq
      dsimp only at heq
      rcases hpm : pmDeletePod b pod mapping.deviceID with ⟨r, b2⟩
      rw [hpm] at heq
      cases r with
      | error e =>
        simp only [Prod.mk.injEq] at heq
        obtain ⟨rfl, rfl, rfl⟩ := heq
        simp at hok
      | ok u =>
        simp only [Prod.mk.injEq] at heq
        obtain ⟨rfl, rfl, rfl⟩ := heq
        unfold providerDeletePod
        rw [lookup_filter_ne_self]
  · intro b pod deviceID device hget hnone
    unfold pmDeletePod
    rw [hget]
    have hfound : device.spec.applications.any
        (fun app => app.name == pod.ns ++ "-" ++ pod.name) = false := by
      rw [List.any_eq_false]
      intro app hm
      simp only [beq_iff_eq]
      exact hnone app hm
    simp [hfound]

/-- C8 (witness): the second DeletePod on the sample state is a
successful no-op, and deleting from the document that lacks the
application succeeds at the backend layer. -/
theorem deletePod_idempotent_witness :
    providerDeletePod c8after.2.1 c8after.2.2 annPod
      = (Except.ok (), c8after.2.1, c8after.2.2) ∧
    pmDeletePod bareBackend annPod "dev-1" = (Except.ok (), bareBackend) :=
  ⟨deletePod_idempotent.1 c8state c8backend annPod c8after.1 c8after.2.1 c8after.2.2
      rfl rfl,
   deletePod_idempotent.2 bareBackend annPod "dev-1" bareDevice rfl (by decide)⟩

end VKFC
